import Mathlib

/-!
Verification development for the Ytmusic-Spotify-Sync repository.

Shallow embedding of the core modules:
  * `src/normalize.py`  (`SongNormalizer`, `normalize_track_name`, `normalize_artist_name`)
  * `src/matching.py`   (`SongMatcher.calculate_similarity`, module-level `find_best_match`)
  * `src/sync.py`       (`SimpleSyncEngine.sync_playlist_spotify_to_youtube`)
  * `src/services_youtube.py` (`search_song`, `add_songs_to_playlist` result shapes)

Modelling conventions:
  * Python strings are Lean `String`s; most work happens on `List Char`.
  * Python floats are modelled as exact rationals (`ℚ`); at every concrete
    input used below the Python double computation is exact, so the model
    agrees with the code.
  * Fallible Python code (functions raising `ValueError`) is modelled with
    `Except String`.
  * Collaborator calls made by the sync engine (Spotify fetches, YouTube
    search, playlist creation, batch adds) are passed in as explicit
    function arguments; calls to the add-tracks collaborator are logged in
    the returned trace so that submission behaviour can be stated.
  * `unicodedata.normalize('NFD', ·)` is modelled by a per-character
    decomposition table covering the accented characters exercised here;
    every other character decomposes to itself.  Combining-mark detection
    (`category == 'Mn'`) is the corresponding mark table.
-/

/- Batteries marks the arithmetic on `Rat` `@[irreducible]`; re-allowing
unfolding lets concrete score computations below be settled by `decide`. -/
attribute [local semireducible] Rat.mul Rat.add Rat.sub Rat.inv

/-! ## Character-level helpers -/

/-- The whitespace characters matched by Python's `\s` and `str.split()` /
`str.strip()` for the ASCII range (space, tab, newline, carriage return,
vertical tab, form feed). -/
def pyIsWs (c : Char) : Bool :=
  c = ' ' || c = '\t' || c = '\n' || c = '\r' || c = '\x0b' || c = '\x0c'

/-- Python regex `\w` (word character) for the ASCII range: letters, digits
and underscore.  Used for `\b` word-boundary tests. -/
def isWordChar (c : Char) : Bool :=
  c.isAlphanum || c = '_'

/-- ASCII lowering: `A`-`Z` map to `a`-`z`, everything else unchanged. -/
def asciiLower (c : Char) : Char :=
  if 'A' ≤ c ∧ c ≤ 'Z' then Char.ofNat (c.toNat + 32) else c

/-- Python `str.lower` restricted to the characters this development uses:
ASCII case mapping plus the accented letters in the decomposition table. -/
def pyLowerChar (c : Char) : Char :=
  if c = 'É' then 'é'
  else if c = 'Ñ' then 'ñ'
  else asciiLower c

/-- NFD decomposition table (`unicodedata.normalize('NFD', ·)`), modelled
per character: the accented letters used in this development decompose into
a base letter followed by a combining mark; every other character is its
own decomposition. -/
def nfdChar (c : Char) : List Char :=
  if c = 'é' then ['e', '\u0301']
  else if c = 'É' then ['E', '\u0301']
  else if c = 'ñ' then ['n', '\u0303']
  else if c = 'Ñ' then ['N', '\u0303']
  else [c]

/-- Combining marks (`unicodedata.category == 'Mn'`) appearing in the
decomposition table. -/
def isMn (c : Char) : Bool :=
  c = '\u0301' || c = '\u0303'

/-- The character class kept by `normalize_text`'s
`re.sub(r'[^a-z0-9\s\-]', '', ·)`: lowercase ASCII letters, digits,
whitespace and hyphen. -/
def keptChar (c : Char) : Bool :=
  ('a' ≤ c && c ≤ 'z') || ('0' ≤ c && c ≤ '9') || pyIsWs c || c = '-'

/-! ## List-of-characters utilities -/

/-- `_remove_accents` on the character list: NFD-decompose each character
and drop combining marks. -/
def deaccent : List Char → List Char
  | [] => []
  | c :: cs => (nfdChar c).filter (fun m => !isMn m) ++ deaccent cs

/-- Worker for `re.sub(r'\s+', ' ', ·)`: replaces every maximal whitespace
run by a single space.  The flag records whether the previous character was
part of a whitespace run already emitted as `' '`. -/
def collapseWsAux (prevWs : Bool) : List Char → List Char
  | [] => []
  | c :: cs =>
    if pyIsWs c then
      if prevWs then collapseWsAux true cs else ' ' :: collapseWsAux true cs
    else c :: collapseWsAux false cs

/-- `re.sub(r'\s+', ' ', ·)`. -/
def collapseWs (l : List Char) : List Char :=
  collapseWsAux false l

/-- Python `str.strip()`: drop whitespace from both ends. -/
def pyStripL (l : List Char) : List Char :=
  (((l.dropWhile pyIsWs).reverse).dropWhile pyIsWs).reverse

/-- Python `str.strip()` on strings. -/
def pyStrip (s : String) : String :=
  ⟨pyStripL s.data⟩

/-- Python `str.lower()` on strings. -/
def pyLower (s : String) : String :=
  ⟨s.data.map pyLowerChar⟩

/-- Length of the leading whitespace run. -/
def countWs : List Char → Nat
  | [] => 0
  | c :: cs => if pyIsWs c then countWs cs + 1 else 0

/-! ## `SongNormalizer.normalize_text` (normalize.py lines 68-104) -/

/-- The body of `normalize_text` on a character list: lowercase, strip
accents, drop characters outside `[a-z0-9\s\-]`, collapse whitespace runs,
strip. -/
def normCore (l : List Char) : List Char :=
  pyStripL (collapseWs ((deaccent (l.map pyLowerChar)).filter keptChar))

/-- `SongNormalizer.normalize_text`: raises `ValueError` on empty input,
otherwise applies the normalization pipeline (which never raises on
non-empty input). -/
def normalizeText (s : String) : Except String String :=
  if s = "" then .error "Text cannot be None or empty"
  else .ok ⟨normCore s.data⟩

/-! ## `SongNormalizer.remove_video_suffixes` (normalize.py lines 132-158) -/

/-- Case-insensitive literal prefix test (the compiled suffix patterns are
all literals, matched under `re.IGNORECASE`). -/
def tryPat (pat : List Char) (l : List Char) : Bool :=
  (l.take pat.length).map pyLowerChar == pat

/-- First pattern (in `VIDEO_SUFFIXES` order) matching at the head of `l`,
returning its length; mirrors the regex alternation which tries the
alternatives left to right at each position. -/
def firstPatLen : List (List Char) → List Char → Option Nat
  | [], _ => none
  | p :: ps, l => if tryPat p l then some p.length else firstPatLen ps l

def sfx01 : String := "(official video)"
def sfx02 : String := "(official music video)"
def sfx03 : String := "(official audio)"
def sfx04 : String := "(lyric video)"
def sfx05 : String := "(lyrics)"
def sfx06 : String := "[official video]"
def sfx07 : String := "[official music video]"
def sfx08 : String := "[official audio]"
def sfx09 : String := "[lyric video]"
def sfx10 : String := "[lyrics]"
def sfx11 : String := "- official video"
def sfx12 : String := "- official music video"
def sfx13 : String := "- official audio"
def sfx14 : String := "- lyric video"
def sfx15 : String := "- lyrics"

/-- `VIDEO_SUFFIXES`, in source order (regex escapes removed: the patterns
are literals). -/
def suffixPats : List (List Char) :=
  [sfx01.data, sfx02.data, sfx03.data, sfx04.data, sfx05.data,
   sfx06.data, sfx07.data, sfx08.data, sfx09.data, sfx10.data,
   sfx11.data, sfx12.data, sfx13.data, sfx14.data, sfx15.data]

/-- Worker for `video_suffix_pattern.sub('', ·)`, structurally recursive
on a fuel bounded below by the list length (every step consumes at least
one character, so the fuel never runs out). -/
def subSuffixesF : Nat → List Char → List Char
  | 0, _ => []
  | _ + 1, [] => []
  | fuel + 1, c :: cs =>
    match firstPatLen suffixPats (c :: cs) with
    | some n => subSuffixesF fuel ((c :: cs).drop n)
    | none => c :: subSuffixesF fuel cs

/-- `video_suffix_pattern.sub('', ·)`: scan left to right, removing each
non-overlapping occurrence of a suffix pattern. -/
def subSuffixes (l : List Char) : List Char :=
  subSuffixesF l.length l

/-- `re.sub(r'\s*-\s*$', '', ·)`: remove one trailing group of optional
whitespace, a hyphen, and optional whitespace, anchored at the end of the
string; if no such suffix exists the string is unchanged. -/
def removeTrailingDash (l : List Char) : List Char :=
  match (l.reverse.dropWhile pyIsWs) with
  | '-' :: rest => ((rest.dropWhile pyIsWs)).reverse
  | _ => l

/-- `SongNormalizer.remove_video_suffixes`: strips the video-annotation
literals, collapses whitespace, removes a trailing dash and strips.  The
`try/except` body is total, so the fallback branch is unreachable. -/
def removeVideoSuffixes (s : String) : String :=
  if s = "" then s
  else ⟨pyStripL (removeTrailingDash (collapseWs (subSuffixes s.data)))⟩

/-! ## `SongNormalizer.normalize_featuring` (normalize.py lines 160-186) -/

/-- Match of the regex alternation
`\bfeat\.?\b|\bft\.?\b|\bfeaturing\b|\bwith\b` at the head of `l`,
assuming the leading word boundary already holds.  Returns
`(lastConsumedIsWordChar, consumedLength)`.  A trailing `.` is consumed
only when the following character is a word character (otherwise `\b`
fails after the dot and the regex backtracks to the dot-less form, which
then needs a non-word character or end of input after the keyword). -/
def featAltLen (l : List Char) : Option (Bool × Nat) :=
  if (l.take 4).map pyLowerChar == "feat".data then
    if (l.drop 4).head? = some '.' ∧ ((l.drop 5).head?.any isWordChar) then some (false, 5)
    else if ((l.drop 4).head?.all (fun c => !isWordChar c)) then some (true, 4)
    else if (l.take 9).map pyLowerChar == "featuring".data
            ∧ ((l.drop 9).head?.all (fun c => !isWordChar c)) then some (true, 9)
    else none
  else if (l.take 2).map pyLowerChar == "ft".data then
    if (l.drop 2).head? = some '.' ∧ ((l.drop 3).head?.any isWordChar) then some (false, 3)
    else if ((l.drop 2).head?.all (fun c => !isWordChar c)) then some (true, 2)
    else none
  else if (l.take 4).map pyLowerChar == "with".data
          ∧ ((l.drop 4).head?.all (fun c => !isWordChar c)) then some (true, 4)
  else none

/-- `featuring_pattern.sub('feat', ·)`: scan left to right; a match may
start only at a word boundary (previous character not a word character —
all alternatives begin with a word character).  Matching is performed on
the original text; the replacement is the literal `feat`.  Structurally
recursive on a fuel bounded below by the list length. -/
def subFeatAux : Nat → Bool → List Char → List Char
  | 0, _, _ => []
  | _ + 1, _, [] => []
  | fuel + 1, prevWord, c :: cs =>
    if prevWord then c :: subFeatAux fuel (isWordChar c) cs
    else
      match featAltLen (c :: cs) with
      | some (lw, n) => 'f' :: 'e' :: 'a' :: 't' :: subFeatAux fuel lw ((c :: cs).drop n)
      | none => c :: subFeatAux fuel (isWordChar c) cs

/-- `re.sub(r'\s+feat\s+', ' feat ', ·)` (case-sensitive, no flags): a
match is a maximal whitespace run, the literal `feat`, and a maximal
whitespace run (the trailing run is consumed greedily); scanning resumes
after the match.  A match cannot start in the middle of a whitespace run
without also matching at the run's start, so whole runs are processed at
once. -/
def cleanFeatSpacingF : Nat → List Char → List Char
  | 0, _ => []
  | _ + 1, [] => []
  | fuel + 1, c :: cs =>
    if pyIsWs c then
      let rest := cs.drop (countWs cs)
      if rest.take 4 = "feat".data ∧ 1 ≤ countWs (rest.drop 4) then
        ' ' :: 'f' :: 'e' :: 'a' :: 't' :: ' ' ::
          cleanFeatSpacingF fuel ((rest.drop 4).drop (countWs (rest.drop 4)))
      else (c :: cs.take (countWs cs)) ++ cleanFeatSpacingF fuel rest
    else c :: cleanFeatSpacingF fuel cs

def cleanFeatSpacing (l : List Char) : List Char :=
  cleanFeatSpacingF l.length l

/-- `SongNormalizer.normalize_featuring`: returns the input unchanged when
falsy, else substitutes the featuring alternation and cleans up the
spacing around `feat`.  The body is total, so the `except` fallback is
unreachable. -/
def normalizeFeaturing (s : String) : String :=
  if s = "" then s
  else ⟨cleanFeatSpacing (subFeatAux s.data.length false s.data)⟩

/-! ## `SongNormalizer.extract_main_artists` (normalize.py lines 188-216) -/

/-- Match of the alternation inside
`re.split(r'\s+(?:feat\.?|ft\.?|featuring|with)\s+', ·, maxsplit=1,
flags=IGNORECASE)` at the head of `l` (no word boundaries here): returns
the consumed keyword length; a trailing dot is consumed when followed by
whitespace, and the alternation requires a whitespace character after the
keyword. -/
def splitAltLen (l : List Char) : Option Nat :=
  if (l.take 4).map pyLowerChar == "feat".data then
    if (l.drop 4).head? = some '.' ∧ ((l.drop 5).head?.any pyIsWs) then some 5
    else if ((l.drop 4).head?.any pyIsWs) then some 4
    else if (l.take 9).map pyLowerChar == "featuring".data
            ∧ ((l.drop 9).head?.any pyIsWs) then some 9
    else none
  else if (l.take 2).map pyLowerChar == "ft".data then
    if (l.drop 2).head? = some '.' ∧ ((l.drop 3).head?.any pyIsWs) then some 3
    else if ((l.drop 2).head?.any pyIsWs) then some 2
    else none
  else if (l.take 4).map pyLowerChar == "with".data
          ∧ ((l.drop 4).head?.any pyIsWs) then some 4
  else none

/-- Finds the first match of `\s+(?:feat\.?|ft\.?|featuring|with)\s+` and
returns the text before it (`none` when there is no match).  A match must
start at the beginning of a whitespace run. -/
def emaAuxF : Nat → List Char → Option (List Char)
  | 0, _ => none
  | _ + 1, [] => none
  | fuel + 1, c :: cs =>
    if pyIsWs c then
      let rest := cs.drop (countWs cs)
      match splitAltLen rest with
      | some _ => some []
      | none =>
        match emaAuxF fuel rest with
        | some pre => some ((c :: cs.take (countWs cs)) ++ pre)
        | none => none
    else
      match emaAuxF fuel cs with
      | some pre => some (c :: pre)
      | none => none

def emaAux (l : List Char) : Option (List Char) :=
  emaAuxF l.length l

/-- `SongNormalizer.extract_main_artists`: text before the first featuring
separator, stripped (`parts[0].strip()`); when there is no separator the
whole (stripped) string. -/
def extractMainArtists (s : String) : String :=
  if s = "" then s
  else
    match emaAux s.data with
    | some pre => ⟨pyStripL pre⟩
    | none => pyStrip s

/-! ## `normalize_song`, `normalize_track_name`, `normalize_artist_name`
(normalize.py lines 218-271 and 333-375) -/

/-- `SongNormalizer.normalize_song`: raises `ValueError` when title or
artist is falsy; otherwise removes video suffixes from the title,
normalizes featuring notation, optionally truncates the artist at the
featuring separator, and applies `normalize_text` to both (whose
`ValueError` on an empty intermediate propagates — the `except` clause
re-raises). -/
def normalizeSong (title artist : String) (removeFeaturing : Bool) :
    Except String (String × String) :=
  if title = "" ∨ artist = "" then .error "Both title and artist must be provided"
  else
    let nTitle := normalizeFeaturing (removeVideoSuffixes title)
    let nArtist0 := normalizeFeaturing artist
    let nArtist1 := if removeFeaturing then extractMainArtists nArtist0 else nArtist0
    match normalizeText nTitle with
    | .error e => .error e
    | .ok t =>
      match normalizeText nArtist1 with
      | .error e => .error e
      | .ok a => .ok (t, a)

/-- Module-level `normalize_track_name`: empty input yields `""`; the
pipeline is suffix removal, featuring normalization, `normalize_text`; if
`normalize_text` raises (the cleaned string became empty) the fallback is
`track_name.lower().strip()`. -/
def normalizeTrackName (trackName : String) : String :=
  if trackName = "" then ""
  else
    match normalizeText (normalizeFeaturing (removeVideoSuffixes trackName)) with
    | .ok r => r
    | .error _ => pyStrip (pyLower trackName)

/-- Module-level `normalize_artist_name`: empty input yields `""`; the
pipeline is featuring normalization then `normalize_text`; on error the
fallback is `artist_name.lower().strip()`. -/
def normalizeArtistName (artistName : String) : String :=
  if artistName = "" then ""
  else
    match normalizeText (normalizeFeaturing artistName) with
    | .ok r => r
    | .error _ => pyStrip (pyLower artistName)

/-! ## `SongMatcher.calculate_similarity` (matching.py lines 49-91) and the
module-level `find_best_match` (matching.py lines 293-318)

`rapidfuzz.fuzz.token_sort_ratio(s1, s2)` splits each string on whitespace,
sorts the tokens lexicographically, rejoins them with single spaces, and
returns `fuzz.ratio` of the two rejoined strings.  `fuzz.ratio` is the
normalized indel similarity scaled to 0-100: with `M` the length of a
longest common subsequence and `lensum` the sum of lengths, the ratio is
`200*M/lensum` (and 100 when both strings are empty). -/

/-- Worker for the longest-common-subsequence length, structurally
recursive on a fuel bounded below by the sum of lengths (each step
consumes one character). -/
def lcsF : Nat → List Char → List Char → Nat
  | 0, _, _ => 0
  | _ + 1, [], _ => 0
  | _ + 1, _ :: _, [] => 0
  | fuel + 1, a :: as, b :: bs =>
    if a = b then lcsF fuel as bs + 1
    else max (lcsF fuel (a :: as) bs) (lcsF fuel as (b :: bs))

/-- Longest-common-subsequence length (the similarity kernel of
`fuzz.ratio`, which uses indel distance `lensum - 2*lcs`). -/
def lcs (a b : List Char) : Nat :=
  lcsF (a.length + b.length) a b

/-- `rapidfuzz.fuzz.ratio` on character lists: `200*lcs/lensum`, with the
rapidfuzz convention that two empty strings score 100. -/
def fuzzScore (a b : List Char) : ℚ :=
  if a.length + b.length = 0 then 100
  else ((200 * lcs a b : ℕ) : ℚ) / ((a.length + b.length : ℕ) : ℚ)

/-- Maximal non-whitespace runs (Python `str.split()` with no separator:
used by `token_sort_ratio` to tokenize). -/
def wsTokensAux (cur : List Char) : List Char → List (List Char)
  | [] => if cur = [] then [] else [cur.reverse]
  | c :: cs =>
    if pyIsWs c then
      if cur = [] then wsTokensAux [] cs else cur.reverse :: wsTokensAux [] cs
    else wsTokensAux (c :: cur) cs

def wsTokens (l : List Char) : List (List Char) :=
  wsTokensAux [] l

/-- Lexicographic comparison of strings by code point (Python `<` on
`str`, used by `sorted`). -/
def charListLt : List Char → List Char → Bool
  | [], [] => false
  | [], _ :: _ => true
  | _ :: _, [] => false
  | a :: as, b :: bs =>
    if a < b then true
    else if b < a then false
    else charListLt as bs

/-- Insertion into a sorted token list (ascending, as Python `sorted`). -/
def insertTok (x : List Char) : List (List Char) → List (List Char)
  | [] => [x]
  | y :: ys => if charListLt y x then y :: insertTok x ys else x :: y :: ys

/-- Sort tokens ascending (Python `sorted`). -/
def sortToks : List (List Char) → List (List Char)
  | [] => []
  | x :: xs => insertTok x (sortToks xs)

/-- Join tokens with single spaces (`' '.join`). -/
def joinSp : List (List Char) → List Char
  | [] => []
  | [t] => t
  | t :: ts => t ++ ' ' :: joinSp ts

/-- The token-sort preprocessing of `fuzz.token_sort_ratio`: split on
whitespace, sort tokens, rejoin with spaces. -/
def tokenSortProc (l : List Char) : List Char :=
  joinSp (sortToks (wsTokens l))

/-- `rapidfuzz.fuzz.token_sort_ratio` on character lists. -/
def tokenSortScore (a b : List Char) : ℚ :=
  fuzzScore (tokenSortProc a) (tokenSortProc b)

/-- `SongMatcher.calculate_similarity` with the default constructor
weights: `token_sort_ratio` of the lowercased titles and of the lowercased
artists, combined as `title_score*0.6 + artist_score*0.4` (the constructor
re-normalizes the weights by their sum `1.0`, leaving `0.6`/`0.4`).  The
code applies no exact-match fast path and no length penalty. -/
def calculateSimilarity (sourceTitle sourceArtist targetTitle targetArtist : String) : ℚ :=
  tokenSortScore (sourceTitle.data.map pyLowerChar) (targetTitle.data.map pyLowerChar) * (3/5)
    + tokenSortScore (sourceArtist.data.map pyLowerChar) (targetArtist.data.map pyLowerChar) * (2/5)

/-- Module-level `find_best_match` (matching.py lines 293-318): the
similarity scaled to `[0,1]`. -/
def findBestMatch (sourceTitle sourceArtist targetTitle targetArtist : String) : ℚ :=
  calculateSimilarity sourceTitle sourceArtist targetTitle targetArtist / 100

/-- The spec's "raw weighted score" (§4.2): title and artist token-sort
similarities combined with the 0.6/0.4 weights — exactly what
`calculate_similarity` computes before the penalty the spec describes. -/
def rawWeightedScore (sourceTitle sourceArtist targetTitle targetArtist : String) : ℚ :=
  tokenSortScore (sourceTitle.data.map pyLowerChar) (targetTitle.data.map pyLowerChar) * (3/5)
    + tokenSortScore (sourceArtist.data.map pyLowerChar) (targetArtist.data.map pyLowerChar) * (2/5)

/-- Modelled from the spec's words (§4.2), for comparison with
`calculateSimilarity`: "if the absolute character-length gap between the
two full normalized strings exceeds 10 and the raw score exceeds 80,
subtract 10".  `srcLen`/`tgtLen` are the lengths of the two full
normalized strings and `raw` the raw weighted score. -/
def specLengthPenalty (srcLen tgtLen : ℕ) (raw : ℚ) : ℚ :=
  if 10 < (max srcLen tgtLen - min srcLen tgtLen) ∧ 80 < raw then raw - 10 else raw

/-! ## The sync engine (sync.py lines 52-299) -/

/-- A Spotify track as consumed by the engine (`track['name']`,
`track['artists']`). -/
structure SourceTrack where
  name : String
  artists : List String
deriving DecidableEq, Repr

/-- The fields of a search-result dict that the engine reads:
`youtube_result.get('videoId')`, `youtube_result['title']`,
`youtube_result['artists']`.  `videoId` is optional (`.get`); `title` and
`artists` are read only on the branch where `videoId` is truthy, and every
dict considered in this development carries them. -/
structure SearchDict where
  videoId : Option String
  title : String
  artists : String
deriving DecidableEq, Repr

/-- Result of one `youtube.add_songs_to_playlist` call as the engine sees
it: the call may raise, return a Python `bool` (what
`YouTubeMusicService.add_songs_to_playlist` actually returns), or return a
dict with `success`/`added`/`error` keys (what the engine's handling code
expects). -/
inductive AddResult where
  | raiseExc : AddResult
  | pyBool (b : Bool) : AddResult
  | pyDict (success : Bool) (added : Nat) (errMsg : Option String) : AddResult
deriving DecidableEq, Repr

/-- Per-track outcome of the match-loop body (sync.py lines 133-207):
`accepted` appends the video id to `matched_video_ids`; `skipped` is the
`continue` taken when the id is already in the playlist; `failed` appends
an entry to `failed_songs` with the given reason. -/
inductive TrackStep where
  | accepted (vid : String) : TrackStep
  | skipped : TrackStep
  | failed (reason : String) : TrackStep
deriving DecidableEq, Repr

/-- `', '.join(track['artists'])` (the track's artists are always a list
here). -/
def joinArtists (t : SourceTrack) : String :=
  String.intercalate ", " t.artists

/-- One iteration of the engine's match loop (sync.py lines 133-207).
`existing` is the baseline id set; `search` is the destination search
collaborator, called with the normalized track and artist names.  The
low-confidence reason strings elide the percentage formatting of the
source's f-strings. -/
def processTrack (existing : List String) (search : String → String → Option SearchDict)
    (t : SourceTrack) : TrackStep :=
  let nTrack := normalizeTrackName t.name
  let nArtist := normalizeArtistName (joinArtists t)
  match search nTrack nArtist with
  | none => .failed "Not found on YouTube Music"
  | some d =>
    match d.videoId with
    | none => .failed "Not found on YouTube Music"
    | some vid =>
      if vid = "" then .failed "Not found on YouTube Music"
      else if vid.length < 5 then .failed ("Invalid video ID: " ++ vid)
      else if existing.contains vid then .skipped
      else
        let conf := findBestMatch t.name (joinArtists t) d.title d.artists
        if conf ≥ 4/5 then .accepted vid
        else if conf ≥ 7/10 then
          if conf ≥ 3/4 then .accepted vid
          else .failed "Low match confidence (70-75%), candidate shown"
        else .failed "Low match confidence"

/-- The match loop: returns `matched_video_ids` and `failed_songs`
(`(track, artist, reason)` triples), both in source order. -/
def matchLoop (existing : List String) (search : String → String → Option SearchDict) :
    List SourceTrack → List String × List (String × String × String)
  | [] => ([], [])
  | t :: ts =>
    let rest := matchLoop existing search ts
    match processTrack existing search t with
    | .accepted v => (v :: rest.1, rest.2)
    | .skipped => rest
    | .failed r => (rest.1, (t.name, joinArtists t, r) :: rest.2)

/-- Worker for `l[i:i+n]` slicing, structurally recursive on a fuel
bounded below by the list length. -/
def chunksF (n : Nat) : Nat → List α → List (List α)
  | 0, _ => []
  | _ + 1, [] => []
  | fuel + 1, x :: xs => (x :: xs.take (n - 1)) :: chunksF n fuel (xs.drop (n - 1))

/-- `l[i:i+n]` slices for `i in range(0, len(l), n)` (all uses have
`n ≥ 1`). -/
def chunks (n : Nat) (l : List α) : List (List α) :=
  chunksF n l.length l

/-- The engine's batch-submission loop (sync.py lines 221-248): each batch
is submitted exactly once; a dict result with `success` truthy adds
`result['added']` to `successfully_added`; a failed dict, a non-dict
result ("API returned invalid response") or an exception contributes
nothing, and the loop continues with the next batch.  Returns the list of
collaborator calls made and the final `successfully_added`. -/
def batchLoop (add : List String → AddResult) : List (List String) → List (List String) × Nat
  | [] => ([], 0)
  | b :: bs =>
    let rest := batchLoop add bs
    (b :: rest.1,
      (match add b with
       | .pyDict true a _ => a
       | _ => 0) + rest.2)

/-- The engine's `SyncResult` dataclass (sync.py lines 25-34), with the
wall-clock `duration_seconds` field omitted (real time is not modelled). -/
structure SyncResult where
  playlist_name : String
  total_tracks : Nat
  matched_tracks : Nat
  failed_tracks : Nat
  failed_songs : List (String × String × String)
  success : Bool
deriving DecidableEq, Repr

/-- A full engine run: the returned `SyncResult` plus the run's
`matched_video_ids`, the batches submitted to the add collaborator, and
`successfully_added`. -/
structure RunTrace where
  result : SyncResult
  matchedVideoIds : List String
  addCalls : List (List String)
  successfullyAdded : Nat
deriving DecidableEq, Repr

/-- The `SyncResult` built by the engine's `except` handler (sync.py lines
289-299). -/
def failSyncResult : SyncResult :=
  { playlist_name := "Unknown", total_tracks := 0, matched_tracks := 0,
    failed_tracks := 0, failed_songs := [], success := false }

/-- Step 2 of the engine: the target playlist id; `none` means the run
raises (creation returned a falsy id, or no id was supplied with
`create_if_missing=False`). -/
def resolveYt (youtubePlaylistId : Option String) (createIfMissing : Bool)
    (createResult : Option String) : Option String :=
  match youtubePlaylistId with
  | some y => some y
  | none => if createIfMissing then createResult else none

/-- `SimpleSyncEngine.sync_playlist_spotify_to_youtube` (sync.py lines
52-299).  Collaborator behaviour is passed in:
`playlists` — `spotify.get_user_playlists()` (`.error` = the call raises);
`sourceTracks` — `spotify.get_playlist_tracks(...)`;
`createResult` — `youtube.create_playlist(...)`;
`baseline` — the `videoId` fields of `youtube.get_playlist_tracks(target)`
(that service method never raises; absent/falsy ids are filtered out);
`search` — `youtube.search_song` as a function of the normalized query;
`add` — `youtube.add_songs_to_playlist` on one batch.
Any exception anywhere in the body is caught by the engine's one
`try/except`, which returns `failSyncResult`. -/
def syncRun (playlists : Except Unit (List (String × String)))
    (spotifyPlaylistId : String)
    (sourceTracks : Except Unit (List SourceTrack))
    (youtubePlaylistId : Option String)
    (createIfMissing : Bool)
    (createResult : Option String)
    (baseline : List (Option String))
    (search : String → String → Option SearchDict)
    (add : List String → AddResult) : RunTrace :=
  match playlists with
  | .error _ => ⟨failSyncResult, [], [], 0⟩
  | .ok pls =>
    let playlistName := (((pls.find? (fun p => p.1 == spotifyPlaylistId)).map Prod.snd)).getD
      "Unknown Playlist"
    match sourceTracks with
    | .error _ => ⟨failSyncResult, [], [], 0⟩
    | .ok tracks =>
      if tracks = [] then
        ⟨{ playlist_name := playlistName, total_tracks := 0, matched_tracks := 0,
           failed_tracks := 0, failed_songs := [], success := true }, [], [], 0⟩
      else
        match resolveYt youtubePlaylistId createIfMissing createResult with
        | none => ⟨failSyncResult, [], [], 0⟩
        | some _ =>
          let existing := (baseline.filterMap id).filter (fun v => v ≠ "")
          let mf := matchLoop existing search tracks
          let ca := batchLoop add (chunks 10 mf.1)
          ⟨{ playlist_name := playlistName, total_tracks := tracks.length,
             matched_tracks := mf.1.length, failed_tracks := mf.2.length,
             failed_songs := mf.2, success := true }, mf.1, ca.1, ca.2⟩

/-! ## `YouTubeMusicService` collaborator shapes (services_youtube.py) -/

/-- A raw result from `ytmusic.search` as read by `search_song`
(`best_match.get('videoId')`, `best_match.get('title')`, artists list). -/
structure YtRawResult where
  videoId : Option String
  title : Option String
  artistNames : List String
deriving DecidableEq, Repr

/-- The dict returned by `YouTubeMusicService.search_song` (services_youtube.py
lines 305-365): its keys are `id`, `name`, `artists`, `artist`, `album`,
`duration_ms`, `thumbnails` — there is no `videoId` and no `title` key. -/
structure YtReturnDict where
  id : Option String
  name : Option String
  artist : String
deriving DecidableEq, Repr

/-- `search_song` given the remote search behaviour (query ↦ ranked
results): builds the query `f"{song_name} {artist_name}"`, returns `None`
on an empty result list, else repackages the first result. -/
def searchSongService (remote : String → List YtRawResult) (songName artistName : String) :
    Option YtReturnDict :=
  match remote (songName ++ " " ++ artistName) with
  | [] => none
  | r :: _ =>
    some { id := r.videoId, name := r.title,
           artist := String.intercalate ", " r.artistNames }

/-- The engine's view of a dict returned by `search_song`:
`.get('videoId')` finds no such key (the service stores the id under
`id`), so the engine always sees `videoId = none`; `title` and `artists`
are only read on the (unreachable) truthy-`videoId` branch, modelled as
`""`. -/
def engineViewOfReturnDict (_ : YtReturnDict) : SearchDict :=
  { videoId := none, title := "", artists := "" }

/-- The composed search collaborator the engine actually gets:
`YouTubeMusicService.search_song` in front of the remote API. -/
def composedSearch (remote : String → List YtRawResult) (q a : String) : Option SearchDict :=
  (searchSongService remote q a).map engineViewOfReturnDict

/-- Sub-batch loop of `YouTubeMusicService.add_songs_to_playlist`
(services_youtube.py lines 393-419) over 50-id slices: each slice is
submitted once; the first exception aborts the loop and the function
returns `False` (no retry, no per-id accounting).  Returns the success
bool and the api calls made. -/
def addServiceLoop (api : List String → Except Unit Unit) :
    List (List String) → Bool × List (List String)
  | [] => (true, [])
  | b :: bs =>
    match api b with
    | .ok _ =>
      let rest := addServiceLoop api bs
      (rest.1, b :: rest.2)
    | .error _ => (false, [b])

/-- `YouTubeMusicService.add_songs_to_playlist`: slices the ids into
batches of 50 and submits them sequentially; returns a single `bool`. -/
def addSongsToPlaylistService (api : List String → Except Unit Unit) (videoIds : List String) :
    Bool × List (List String) :=
  addServiceLoop api (chunks 50 videoIds)

/-- No two adjacent spaces (used to characterize collapsed whitespace). -/
def NoAdjSp (l : List Char) : Prop :=
  l.Chain' (fun a b => ¬(a = ' ' ∧ b = ' '))

/-! ## Concrete scenarios used by the claims -/

/-- Four source tracks whose best matches resolve to destination ids
`AAAAA, BBBBB, AAAAA, CCCCC` — two tracks match the same id. -/
def c1Tracks : List SourceTrack :=
  [⟨"song one", ["x"]⟩, ⟨"song two", ["x"]⟩, ⟨"song three", ["x"]⟩, ⟨"song four", ["x"]⟩]

/-- Search collaborator for the dedup scenario: each track gets one
identically-titled candidate; tracks one and three share the id. -/
def c1Search (q _a : String) : Option SearchDict :=
  if q = "song one" then some ⟨some "AAAAA", "song one", "x"⟩
  else if q = "song two" then some ⟨some "BBBBB", "song two", "x"⟩
  else if q = "song three" then some ⟨some "AAAAA", "song three", "x"⟩
  else if q = "song four" then some ⟨some "CCCCC", "song four", "x"⟩
  else none

/-- Dedup-scenario run: empty baseline, all four candidates accepted with
confidence 1, one batch submitted successfully. -/
def c1Run : RunTrace :=
  syncRun (.ok [("sp1", "My Mix")]) "sp1" (.ok c1Tracks) (some "PL1") true none
    [] c1Search (fun _ => .pyDict true 4 none)

/-- Two source tracks for the batch-failure scenario. -/
def c2Tracks : List SourceTrack :=
  [⟨"song one", ["x"]⟩, ⟨"song two", ["x"]⟩]

def c2Search (q _a : String) : Option SearchDict :=
  if q = "song one" then some ⟨some "AAAAA", "song one", "x"⟩
  else if q = "song two" then some ⟨some "BBBBB", "song two", "x"⟩
  else none

/-- A remote add API that always raises. -/
def c2Api : List String → Except Unit Unit := fun _ => .error ()

/-- Batch-failure run: the composed add collaborator
(`add_songs_to_playlist` over an always-raising API) returns the Python
bool `False`. -/
def c2Run : RunTrace :=
  syncRun (.ok [("sp1", "My Mix")]) "sp1" (.ok c2Tracks) (some "PL1") true none
    [] c2Search (fun ids => .pyBool (addSongsToPlaylistService c2Api ids).1)

/-- Remote search results for the end-to-end scenario: the query built
from track 1 returns one near-identical candidate (with its id under
`videoId` in the raw result, as `ytmusic.search` provides); the query for
track 2 returns nothing. -/
def c4Remote (q : String) : List YtRawResult :=
  if q = "let it be the beatles" then
    [⟨some "dQw4w9WgXcQ", some "Let It Be", ["The Beatles"]⟩]
  else []

def c4Tracks : List SourceTrack :=
  [⟨"Let It Be (Official Video)", ["The Beatles"]⟩, ⟨"Unfindable Obscure Track", ["Nobody"]⟩]

/-- End-to-end run with the engine composed with the real
`search_song`/`add_songs_to_playlist` collaborators (the former returns
its result under the keys `id`/`name`, the latter returns a bool). -/
def c4Run : RunTrace :=
  syncRun (.ok [("sp1", "Road Trip")]) "sp1" (.ok c4Tracks) (some "PL1") true none
    [] (composedSearch c4Remote)
    (fun ids => .pyBool (addSongsToPlaylistService (fun _ => .ok ()) ids).1)

/-! ## Helper lemmas: submission batching, matcher reflexivity -/

theorem chunksF_flatten {α : Type} (n : Nat) :
    ∀ (fuel : Nat) (l : List α), l.length ≤ fuel → (chunksF n fuel l).flatten = l := by
  intro fuel
  induction fuel with
  | zero =>
    intro l hl
    have : l = [] := List.eq_nil_of_length_eq_zero (Nat.le_zero.mp hl)
    subst this
    rfl
  | succ fuel ih =>
    intro l hl
    match l with
    | [] => rfl
    | x :: xs =>
      have hx : (xs.drop (n - 1)).length ≤ fuel := by
        simp only [List.length_drop]
        simp only [List.length_cons] at hl
        omega
      simp only [chunksF, List.flatten_cons, ih _ hx, List.cons_append,
        List.take_append_drop]

theorem chunks_flatten {α : Type} (n : Nat) (l : List α) : (chunks n l).flatten = l :=
  chunksF_flatten n l.length l le_rfl

theorem batchLoop_calls (add : List String → AddResult) :
    ∀ bs : List (List String), (batchLoop add bs).1 = bs := by
  intro bs
  induction bs with
  | nil => rfl
  | cons b bs ih => simp [batchLoop, ih]

theorem syncRun_addCalls (pls : Except Unit (List (String × String))) (pid : String)
    (st : Except Unit (List SourceTrack)) (ytpid : Option String) (cim : Bool)
    (cres : Option String) (bl : List (Option String))
    (search : String → String → Option SearchDict) (add : List String → AddResult) :
    (syncRun pls pid st ytpid cim cres bl search add).addCalls =
      chunks 10 (syncRun pls pid st ytpid cim cres bl search add).matchedVideoIds := by
  cases pls with
  | error e => rfl
  | ok ps =>
    cases st with
    | error e => rfl
    | ok tracks =>
      by_cases ht : tracks = []
      · subst ht; rfl
      · simp only [syncRun, if_neg ht]
        cases resolveYt ytpid cim cres with
        | none => rfl
        | some y => simp [batchLoop_calls]

theorem syncRun_submitted (pls : Except Unit (List (String × String))) (pid : String)
    (st : Except Unit (List SourceTrack)) (ytpid : Option String) (cim : Bool)
    (cres : Option String) (bl : List (Option String))
    (search : String → String → Option SearchDict) (add : List String → AddResult) :
    (syncRun pls pid st ytpid cim cres bl search add).addCalls.flatten =
      (syncRun pls pid st ytpid cim cres bl search add).matchedVideoIds := by
  rw [syncRun_addCalls, chunks_flatten]

theorem lcsF_self : ∀ (l : List Char) (fuel : Nat), l.length ≤ fuel → lcsF fuel l l = l.length := by
  intro l
  induction l with
  | nil => intro fuel _; cases fuel <;> rfl
  | cons c cs ih =>
    intro fuel hl
    match fuel with
    | f + 1 =>
      simp only [lcsF, List.length_cons]
      rw [if_pos trivial, ih f (by simp only [List.length_cons] at hl; omega)]

theorem lcs_self (l : List Char) : lcs l l = l.length :=
  lcsF_self l _ (by simp [Nat.le_add_left])

theorem fuzzScore_self (l : List Char) : fuzzScore l l = 100 := by
  by_cases h : l.length + l.length = 0
  · simp [fuzzScore, h]
  · have hn : (l.length : ℚ) ≠ 0 := by
      intro hz
      apply h
      have : l.length = 0 := by exact_mod_cast hz
      omega
    simp only [fuzzScore, if_neg h, lcs_self]
    push_cast
    field_simp
    ring

theorem tokenSortScore_self (l : List Char) : tokenSortScore l l = 100 :=
  fuzzScore_self _

theorem calculateSimilarity_self (t a : String) : calculateSimilarity t a t a = 100 := by
  simp only [calculateSimilarity, tokenSortScore_self]
  norm_num

/-! ## Helper lemmas: idempotence of the text-normalization core -/

theorem keptChar_cases {c : Char} (hc : keptChar c = true) :
    ('a' ≤ c ∧ c ≤ 'z') ∨ ('0' ≤ c ∧ c ≤ '9') ∨ pyIsWs c = true ∨ c = '-' := by
  simp only [keptChar, Bool.or_eq_true, Bool.and_eq_true, decide_eq_true_eq] at hc
  tauto

theorem pyIsWs_cases {c : Char} (h : pyIsWs c = true) :
    c = ' ' ∨ c = '\t' ∨ c = '\n' ∨ c = '\r' ∨ c = '\x0b' ∨ c = '\x0c' := by
  simp only [pyIsWs, Bool.or_eq_true, decide_eq_true_eq] at h
  tauto

theorem kept_not_upper {c : Char} (hc : keptChar c = true) : ¬('A' ≤ c ∧ c ≤ 'Z') := by
  rcases keptChar_cases hc with ⟨h1, h2⟩ | ⟨h1, h2⟩ | h | h
  · rintro ⟨h3, h4⟩
    rw [Char.le_def, UInt32.le_def, BitVec.le_def] at h1 h2 h3 h4
    simp at h1 h2 h3 h4
    omega
  · rintro ⟨h3, h4⟩
    rw [Char.le_def, UInt32.le_def, BitVec.le_def] at h1 h2 h3 h4
    simp at h1 h2 h3 h4
    omega
  · rcases pyIsWs_cases h with h | h | h | h | h | h <;> subst h <;> decide
  · subst h; decide

theorem kept_ne {c : Char} (hc : keptChar c = true) (d : Char) (hd : keptChar d = false) :
    c ≠ d := by
  intro h
  subst h
  rw [hc] at hd
  exact Bool.noConfusion hd

theorem kept_lower {c : Char} (hc : keptChar c = true) : pyLowerChar c = c := by
  have h1 : c ≠ 'É' := kept_ne hc _ (by decide)
  have h2 : c ≠ 'Ñ' := kept_ne hc _ (by decide)
  rw [pyLowerChar, if_neg h1, if_neg h2, asciiLower, if_neg (kept_not_upper hc)]

theorem kept_nfd {c : Char} (hc : keptChar c = true) : nfdChar c = [c] := by
  have h1 : c ≠ 'é' := kept_ne hc _ (by decide)
  have h2 : c ≠ 'É' := kept_ne hc _ (by decide)
  have h3 : c ≠ 'ñ' := kept_ne hc _ (by decide)
  have h4 : c ≠ 'Ñ' := kept_ne hc _ (by decide)
  rw [nfdChar, if_neg h1, if_neg h2, if_neg h3, if_neg h4]

theorem kept_mn {c : Char} (hc : keptChar c = true) : isMn c = false := by
  have h1 : c ≠ '́' := kept_ne hc _ (by decide)
  have h2 : c ≠ '̃' := kept_ne hc _ (by decide)
  simp [isMn, h1, h2]

theorem map_id_on {l : List Char} {f : Char → Char} (h : ∀ c ∈ l, f c = c) : l.map f = l :=
  (List.map_congr_left (g := id) h).trans (List.map_id l)

theorem deaccent_id {l : List Char}
    (h : ∀ c ∈ l, nfdChar c = [c] ∧ isMn c = false) : deaccent l = l := by
  induction l with
  | nil => rfl
  | cons c cs ih =>
    obtain ⟨h1, h2⟩ := h c (by simp)
    have : (nfdChar c).filter (fun m => !isMn m) = [c] := by
      rw [h1]
      simp [List.filter, h2]
    simp only [deaccent, this]
    rw [ih (fun d hd => h d (by simp [hd]))]
    rfl

theorem collapseWsAux_mem :
    ∀ (l : List Char) (b : Bool) (c : Char),
      c ∈ collapseWsAux b l → c = ' ' ∨ (c ∈ l ∧ pyIsWs c = false) := by
  intro l
  induction l with
  | nil => intro b c h; simp [collapseWsAux] at h
  | cons d cs ih =>
    intro b c h
    by_cases hd : pyIsWs d
    · rw [collapseWsAux, if_pos hd] at h
      cases b with
      | true =>
        rcases ih true c h with h' | ⟨h1, h2⟩
        · exact Or.inl h'
        · exact Or.inr ⟨by simp [h1], h2⟩
      | false =>
        rcases List.mem_cons.mp h with h' | h'
        · exact Or.inl h'
        · rcases ih true c h' with h'' | ⟨h1, h2⟩
          · exact Or.inl h''
          · exact Or.inr ⟨by simp [h1], h2⟩
    · rw [collapseWsAux, if_neg hd] at h
      rcases List.mem_cons.mp h with h' | h'
      · subst h'
        exact Or.inr ⟨by simp, by simpa using hd⟩
      · rcases ih false c h' with h'' | ⟨h1, h2⟩
        · exact Or.inl h''
        · exact Or.inr ⟨by simp [h1], h2⟩

theorem collapseWsAux_chain :
    ∀ (l : List Char) (b : Bool),
      NoAdjSp (collapseWsAux b l)
        ∧ (b = true → (collapseWsAux b l).head? ≠ some ' ') := by
  intro l
  induction l with
  | nil => intro b; exact ⟨List.chain'_nil, fun _ => by simp [collapseWsAux]⟩
  | cons d cs ih =>
    intro b
    by_cases hd : pyIsWs d
    · cases b with
      | true =>
        rw [collapseWsAux, if_pos hd]
        exact ih true
      | false =>
        rw [collapseWsAux, if_pos hd]
        constructor
        · refine List.chain'_cons'.mpr ⟨?_, (ih true).1⟩
          intro y hy
          rintro ⟨-, hy'⟩
          subst hy'
          exact (ih true).2 rfl (Option.mem_def.mp hy)
        · intro h; exact absurd h (by simp)
    · rw [collapseWsAux, if_neg hd]
      have hd' : d ≠ ' ' := by
        intro h; subst h; exact hd (by decide)
      constructor
      · refine List.chain'_cons'.mpr ⟨?_, (ih false).1⟩
        intro y hy
        rintro ⟨h1, -⟩
        exact hd' h1
      · intro _
        simp [hd']

theorem collapseWsAux_id :
    ∀ (l : List Char) (b : Bool),
      (∀ c ∈ l, pyIsWs c = true → c = ' ') → NoAdjSp l →
      (b = true → l.head? ≠ some ' ') → collapseWsAux b l = l := by
  intro l
  induction l with
  | nil => intro b _ _ _; rfl
  | cons d cs ih =>
    intro b hsp hchain hhead
    by_cases hd : pyIsWs d
    · have hd' : d = ' ' := hsp d (by simp) hd
      subst hd'
      cases b with
      | true => exact absurd rfl (hhead rfl)
      | false =>
        rw [collapseWsAux, if_pos hd]
        have hcs : collapseWsAux true cs = cs := by
          refine ih true (fun c hc hw => hsp c (by simp [hc]) hw)
            (List.chain'_cons'.mp hchain).2 ?_
          intro _
          intro hh
          have := (List.chain'_cons'.mp hchain).1 ' ' (Option.mem_def.mpr hh)
          exact this ⟨rfl, rfl⟩
        rw [hcs]
        simp
    · rw [collapseWsAux, if_neg hd]
      rw [ih false (fun c hc hw => hsp c (by simp [hc]) hw)
        (List.chain'_cons'.mp hchain).2 (by simp)]

theorem head?_dropWhile_false {p : Char → Bool} {l : List Char} {c : Char}
    (h : (l.dropWhile p).head? = some c) : p c = false := by
  have hh := List.head?_dropWhile_not p l
  rw [h] at hh
  exact hh

theorem pyStripL_subset {l : List Char} {c : Char} (h : c ∈ pyStripL l) : c ∈ l := by
  unfold pyStripL at h
  rw [List.mem_reverse] at h
  have h2 := (List.dropWhile_suffix pyIsWs).subset h
  rw [List.mem_reverse] at h2
  exact (List.dropWhile_suffix pyIsWs).subset h2

theorem pyStripL_chain {l : List Char} (h : NoAdjSp l) : NoAdjSp (pyStripL l) := by
  have h1 : NoAdjSp (l.dropWhile pyIsWs) := h.suffix (List.dropWhile_suffix pyIsWs)
  have h2 : NoAdjSp (l.dropWhile pyIsWs).reverse := by
    rw [NoAdjSp, List.chain'_reverse]
    exact h1.imp (fun a b hab => by rw [Function.flip_def]; tauto)
  have h3 : NoAdjSp ((l.dropWhile pyIsWs).reverse.dropWhile pyIsWs) :=
    h2.suffix (List.dropWhile_suffix pyIsWs)
  rw [NoAdjSp, pyStripL, List.chain'_reverse]
  exact h3.imp (fun a b hab => by rw [Function.flip_def]; tauto)

theorem pyStripL_head {l : List Char} {c : Char} (h : (pyStripL l).head? = some c) :
    pyIsWs c = false := by
  rw [pyStripL, List.head?_reverse] at h
  obtain ⟨t, ht⟩ := List.dropWhile_suffix (l := (l.dropWhile pyIsWs).reverse) pyIsWs
  have hg : (l.dropWhile pyIsWs).reverse.getLast? = some c := by
    rw [← ht, List.getLast?_append, h]
    rfl
  rw [List.getLast?_reverse] at hg
  exact head?_dropWhile_false hg

theorem pyStripL_getLast {l : List Char} {c : Char} (h : (pyStripL l).getLast? = some c) :
    pyIsWs c = false := by
  rw [pyStripL, List.getLast?_reverse] at h
  exact head?_dropWhile_false h

theorem pyStripL_id {l : List Char}
    (h1 : ∀ c, l.head? = some c → pyIsWs c = false)
    (h2 : ∀ c, l.getLast? = some c → pyIsWs c = false) : pyStripL l = l := by
  have e1 : l.dropWhile pyIsWs = l := by
    cases l with
    | nil => rfl
    | cons d t =>
      rw [List.dropWhile_cons, if_neg]
      simp [h1 d rfl]
  rw [pyStripL, e1]
  have e2 : l.reverse.dropWhile pyIsWs = l.reverse := by
    cases hr : l.reverse with
    | nil => simp [hr]
    | cons d t =>
      have hd : l.getLast? = some d := by
        rw [← List.head?_reverse, hr]
        rfl
      simp [List.dropWhile_cons, h2 d hd]
  rw [e2, List.reverse_reverse]

theorem normCore_facts (l : List Char) :
    (∀ c ∈ normCore l, keptChar c = true ∧ (pyIsWs c = true → c = ' '))
      ∧ NoAdjSp (normCore l)
      ∧ (∀ c, (normCore l).head? = some c → pyIsWs c = false)
      ∧ (∀ c, (normCore l).getLast? = some c → pyIsWs c = false) := by
  refine ⟨?_, ?_, fun c => pyStripL_head, fun c => pyStripL_getLast⟩
  · intro c hc
    have hcu : c ∈ collapseWsAux false ((deaccent (l.map pyLowerChar)).filter keptChar) :=
      pyStripL_subset hc
    rcases collapseWsAux_mem _ false c hcu with h | ⟨hmem, hws⟩
    · subst h
      exact ⟨by decide, fun _ => rfl⟩
    · exact ⟨(List.mem_filter.mp hmem).2, fun hw => absurd hw (by simp [hws])⟩
  · exact pyStripL_chain (collapseWsAux_chain _ false).1

theorem normCore_idem (l : List Char) : normCore (normCore l) = normCore l := by
  obtain ⟨hmem, hchain, hhead, hlast⟩ := normCore_facts l
  have e1 : (normCore l).map pyLowerChar = normCore l :=
    map_id_on (fun c hc => kept_lower (hmem c hc).1)
  have e2 : deaccent (normCore l) = normCore l :=
    deaccent_id (fun c hc => ⟨kept_nfd (hmem c hc).1, kept_mn (hmem c hc).1⟩)
  have e3 : (normCore l).filter keptChar = normCore l :=
    List.filter_eq_self.mpr (fun c hc => (hmem c hc).1)
  have e4 : collapseWs (normCore l) = normCore l :=
    collapseWsAux_id _ false (fun c hc => (hmem c hc).2) hchain (by simp)
  show pyStripL (collapseWs ((deaccent ((normCore l).map pyLowerChar)).filter keptChar))
    = normCore l
  rw [e1, e2, e3, e4]
  exact pyStripL_id hhead hlast

/-! ## Helper lemmas: engine control flow -/

theorem processTrack_skipped (existing : List String)
    (search : String → String → Option SearchDict) (t : SourceTrack) (d : SearchDict)
    (vid : String)
    (hs : search (normalizeTrackName t.name) (normalizeArtistName (joinArtists t)) = some d)
    (hv : d.videoId = some vid) (hne : vid ≠ "") (hlen : ¬ vid.length < 5)
    (hbase : existing.contains vid = true) :
    processTrack existing search t = .skipped := by
  simp only [processTrack, hs, hv]
  rw [if_neg hne, if_neg hlen, if_pos hbase]

theorem matchLoop_skipped (existing : List String)
    (search : String → String → Option SearchDict) (t : SourceTrack)
    (h : processTrack existing search t = .skipped) (ts : List SourceTrack) :
    matchLoop existing search (t :: ts) = matchLoop existing search ts := by
  simp [matchLoop, h]

theorem syncRun_fatal (pls : Except Unit (List (String × String))) (pid : String)
    (st : Except Unit (List SourceTrack)) (ytpid : Option String) (cim : Bool)
    (cres : Option String) (bl : List (Option String))
    (search : String → String → Option SearchDict) (add : List String → AddResult) :
    ((pls = .error () ∨ st = .error ()) →
      (syncRun pls pid st ytpid cim cres bl search add).result = failSyncResult)
    ∧ (∀ ts, st = .ok ts → ts ≠ [] → ytpid = none → (cim = false ∨ cres = none) →
      (syncRun pls pid st ytpid cim cres bl search add).result = failSyncResult)
    ∧ (∀ ps ts, pls = .ok ps → st = .ok ts →
        (ts = [] ∨ ytpid.isSome = true ∨ (cim = true ∧ cres.isSome = true)) →
      (syncRun pls pid st ytpid cim cres bl search add).result.success = true) := by
  refine ⟨?_, ?_, ?_⟩
  · rintro (h | h)
    · subst h; rfl
    · subst h; cases pls <;> rfl
  · intro ts hst hne hyt hcc
    subst hst
    subst hyt
    cases pls with
    | error e => rfl
    | ok ps =>
      have hres : resolveYt none cim cres = none := by
        rcases hcc with h | h
        · subst h; rfl
        · subst h; cases cim <;> rfl
      simp only [syncRun, if_neg hne, hres]
  · intro ps ts hp hst hd
    subst hp
    subst hst
    by_cases hts : ts = []
    · subst hts
      simp [syncRun]
    · rcases hd with h | h | ⟨h1, h2⟩
      · exact absurd h hts
      · obtain ⟨y, hy⟩ := Option.isSome_iff_exists.mp h
        subst hy
        simp [syncRun, if_neg hts, resolveYt]
      · obtain ⟨c, hc⟩ := Option.isSome_iff_exists.mp h2
        subst h1
        subst hc
        cases ytpid with
        | none => simp [syncRun, if_neg hts, resolveYt]
        | some y => simp [syncRun, if_neg hts, resolveYt]

/-! Claim theorems -/

/-- Claim C1 (counterexample): the claim says an accepted-id sequence
`[A,B,A,C]` is deduplicated to a submission of exactly `A,B,C`.  In the
concrete run `c1Run` the accepted-id sequence is
`[AAAAA, BBBBB, AAAAA, CCCCC]` and the ids actually submitted to the add
collaborator are `[AAAAA, BBBBB, AAAAA, CCCCC]` — the duplicate is
submitted, not removed. -/
theorem c1_counterexample :
    c1Run.matchedVideoIds = ["AAAAA", "BBBBB", "AAAAA", "CCCCC"]
    ∧ c1Run.addCalls.flatten = ["AAAAA", "BBBBB", "AAAAA", "CCCCC"]
    ∧ (["AAAAA", "BBBBB", "AAAAA", "CCCCC"] : List String) ≠ ["AAAAA", "BBBBB", "CCCCC"] := by
  refine ⟨by decide, by decide, by decide⟩

/-- Claim C1 (amended): the engine performs no deduplication: the sequence
of ids submitted across all batches is exactly the accepted-id list, in
order, duplicates included (only baseline ids were excluded earlier, in
the match loop). -/
theorem c1_amended_thm (pls : Except Unit (List (String × String))) (pid : String)
    (st : Except Unit (List SourceTrack)) (ytpid : Option String) (cim : Bool)
    (cres : Option String) (bl : List (Option String))
    (search : String → String → Option SearchDict) (add : List String → AddResult) :
    (syncRun pls pid st ytpid cim cres bl search add).addCalls.flatten =
      (syncRun pls pid st ytpid cim cres bl search add).matchedVideoIds :=
  syncRun_submitted pls pid st ytpid cim cres bl search add

/-- Claim C2 (counterexample): the claim says a failing batch is retried
up to a configured maximum with backoff and then submitted one id at a
time with per-id outcomes.  In `c2Run` the add collaborator fails on
every call (the service's one `try` catches the API exception and returns
the bool `False`): the engine submits the batch exactly once, never
submits any singleton, records no per-id outcome (`failed_songs` stays
empty), and `successfully_added` stays 0; the service likewise calls the
API exactly once for the batch. -/
theorem c2_counterexample :
    c2Run.matchedVideoIds = ["AAAAA", "BBBBB"]
    ∧ c2Run.addCalls = [["AAAAA", "BBBBB"]]
    ∧ addSongsToPlaylistService c2Api ["AAAAA", "BBBBB"] = (false, [["AAAAA", "BBBBB"]])
    ∧ c2Run.successfullyAdded = 0
    ∧ c2Run.result.failed_songs = []
    ∧ c2Run.result.success = true := by
  refine ⟨by decide, by decide, by decide, by decide, by decide, by decide⟩

/-- Claim C2 (amended): each batch is attempted exactly once, whatever the
outcome: the sequence of calls made to the add collaborator is exactly the
10-id slicing of the accepted-id list — no retry, no backoff, no
per-item fallback, and no per-id outcome exists in the result. -/
theorem c2_amended_thm (pls : Except Unit (List (String × String))) (pid : String)
    (st : Except Unit (List SourceTrack)) (ytpid : Option String) (cim : Bool)
    (cres : Option String) (bl : List (Option String))
    (search : String → String → Option SearchDict) (add : List String → AddResult) :
    (syncRun pls pid st ytpid cim cres bl search add).addCalls =
      chunks 10 (syncRun pls pid st ytpid cim cres bl search add).matchedVideoIds :=
  syncRun_addCalls pls pid st ytpid cim cres bl search add

/-- Claim C3: when the search result's id is already in the baseline set
(and passes the length validation), the loop body takes the skip path —
a decision distinct from the accepted and failed constructors — and the
track contributes neither to the accepted ids (hence not to submission)
nor to the failed songs. -/
theorem c3_thm (existing : List String)
    (search : String → String → Option SearchDict) (t : SourceTrack) (d : SearchDict)
    (vid : String)
    (hs : search (normalizeTrackName t.name) (normalizeArtistName (joinArtists t)) = some d)
    (hv : d.videoId = some vid) (hne : vid ≠ "") (hlen : ¬ vid.length < 5)
    (hbase : existing.contains vid = true) :
    processTrack existing search t = .skipped
    ∧ ∀ ts, matchLoop existing search (t :: ts) = matchLoop existing search ts := by
  have h := processTrack_skipped existing search t d vid hs hv hne hlen hbase
  exact ⟨h, fun ts => matchLoop_skipped existing search t h ts⟩

/-- Witness for C3 at a concrete input: baseline `["VID12"]`, a search
returning id `VID12`; the decision is the skip path and the track list
contributes nothing. -/
theorem c3_witness :
    processTrack ["VID12"] (fun _ _ => some ⟨some "VID12", "t5", "a5"⟩) ⟨"t5", ["a5"]⟩
        = .skipped
    ∧ matchLoop ["VID12"] (fun _ _ => some ⟨some "VID12", "t5", "a5"⟩) [⟨"t5", ["a5"]⟩]
        = ([], []) := by
  have h := c3_thm ["VID12"] (fun _ _ => some ⟨some "VID12", "t5", "a5"⟩)
    ⟨"t5", ["a5"]⟩ ⟨some "VID12", "t5", "a5"⟩ "VID12" rfl rfl (by decide) (by decide)
    (by decide)
  exact ⟨h.1, h.2 []⟩

/-- Claim C4 (code bug): in the two-track end-to-end scenario the remote
search does return a near-identical candidate for track 1 (under the
`videoId` key of the raw result), and the engine's query for it is the
normalized `"let it be"`; but `search_song` repackages the result under
the keys `id`/`name` while the engine reads `videoId`/`title`, so the
engine records *both* tracks as `Not found on YouTube Music`:
`matchedCount` is 0 (claim says 1), nothing is submitted and
`successfully_added` is 0 (claim says `addedCount=1`).  The run itself
still reports success. -/
theorem c4_thm :
    normalizeTrackName "Let It Be (Official Video)" = "let it be"
    ∧ (searchSongService c4Remote "let it be" "the beatles").isSome = true
    ∧ c4Run.result.matched_tracks = 0
    ∧ c4Run.result.failed_songs =
        [("Let It Be (Official Video)", "The Beatles", "Not found on YouTube Music"),
         ("Unfindable Obscure Track", "Nobody", "Not found on YouTube Music")]
    ∧ c4Run.successfullyAdded = 0
    ∧ c4Run.addCalls = []
    ∧ c4Run.result.success = true := by
  refine ⟨by decide, by decide, by decide, by decide, by decide, by decide, by decide⟩

/-- Claim C5 (counterexample): at source `("a"*30, "x")` against candidate
`("a"*18, "x")` the four strings are already normalized (`normalize_text`
fixes them), the full normalized strings have lengths 31 and 19 (gap 12 >
10), the raw weighted score is 85 > 80 — yet `calculate_similarity`
returns 85, not the 75 the claimed penalty would produce. -/
theorem c5_counterexample :
    normalizeText ("aaaaaaaaaaaaaaaaaaaaaaaaaaaaaa" ++ "x")
        = .ok ("aaaaaaaaaaaaaaaaaaaaaaaaaaaaaa" ++ "x")
    ∧ normalizeText ("aaaaaaaaaaaaaaaaaa" ++ "x") = .ok ("aaaaaaaaaaaaaaaaaa" ++ "x")
    ∧ ("aaaaaaaaaaaaaaaaaaaaaaaaaaaaaa" ++ "x").length = 31
    ∧ ("aaaaaaaaaaaaaaaaaa" ++ "x").length = 19
    ∧ 10 < (31 - 19 : ℕ)
    ∧ rawWeightedScore "aaaaaaaaaaaaaaaaaaaaaaaaaaaaaa" "x" "aaaaaaaaaaaaaaaaaa" "x" = 85
    ∧ (80 : ℚ) < 85
    ∧ calculateSimilarity "aaaaaaaaaaaaaaaaaaaaaaaaaaaaaa" "x" "aaaaaaaaaaaaaaaaaa" "x" = 85
    ∧ specLengthPenalty 31 19 85 = 75
    ∧ (85 : ℚ) ≠ 75 := by
  refine ⟨rfl, rfl, by decide, by decide, by decide, by decide, by decide, by decide,
    by decide, by decide⟩

/-- Claim C5 (amended): `calculate_similarity` applies no length-divergence
penalty: even when the length gap exceeds 10 and the raw weighted score
exceeds 80, the returned score is the raw weighted score unchanged, and in
particular differs from the spec's penalized score. -/
theorem c5_amended_thm (st sa tt ta : String) (srcLen tgtLen : ℕ)
    (hgap : 10 < max srcLen tgtLen - min srcLen tgtLen)
    (hraw : 80 < rawWeightedScore st sa tt ta) :
    calculateSimilarity st sa tt ta = rawWeightedScore st sa tt ta
    ∧ calculateSimilarity st sa tt ta
        ≠ specLengthPenalty srcLen tgtLen (rawWeightedScore st sa tt ta) := by
  refine ⟨rfl, ?_⟩
  rw [specLengthPenalty, if_pos ⟨hgap, hraw⟩]
  have : calculateSimilarity st sa tt ta = rawWeightedScore st sa tt ta := rfl
  rw [this]
  intro h
  have h10 : (10 : ℚ) = 0 := by linarith
  norm_num at h10

/-- Witness for C5's amended theorem at the counterexample input. -/
theorem c5_witness :
    10 < max 31 19 - min 31 19
    ∧ 80 < rawWeightedScore "aaaaaaaaaaaaaaaaaaaaaaaaaaaaaa" "x" "aaaaaaaaaaaaaaaaaa" "x"
    ∧ calculateSimilarity "aaaaaaaaaaaaaaaaaaaaaaaaaaaaaa" "x" "aaaaaaaaaaaaaaaaaa" "x"
        = rawWeightedScore "aaaaaaaaaaaaaaaaaaaaaaaaaaaaaa" "x" "aaaaaaaaaaaaaaaaaa" "x" := by
  refine ⟨by decide, by decide, ?_⟩
  exact (c5_amended_thm "aaaaaaaaaaaaaaaaaaaaaaaaaaaaaa" "x" "aaaaaaaaaaaaaaaaaa" "x"
    31 19 (by decide) (by decide)).1

/-- Claim C6: the run always returns a report; a pre-loop failure — the
source fetch raising, or target-playlist resolution failing (creation
returned nothing, or no id was supplied with `create_if_missing=False`) —
yields the zeroed `failSyncResult` with `success = false`; and these are
the only escalations: whenever the pre-loop stages succeed, the run
reports `success = true` for every search collaborator and every add
collaborator, i.e. per-track search failures and per-batch add failures
never fail the run. -/
theorem c6_thm (pls : Except Unit (List (String × String))) (pid : String)
    (st : Except Unit (List SourceTrack)) (ytpid : Option String) (cim : Bool)
    (cres : Option String) (bl : List (Option String))
    (search : String → String → Option SearchDict) (add : List String → AddResult) :
    ((pls = .error () ∨ st = .error ()) →
      (syncRun pls pid st ytpid cim cres bl search add).result = failSyncResult)
    ∧ (∀ ts, st = .ok ts → ts ≠ [] → ytpid = none → (cim = false ∨ cres = none) →
      (syncRun pls pid st ytpid cim cres bl search add).result = failSyncResult)
    ∧ (∀ ps ts, pls = .ok ps → st = .ok ts →
        (ts = [] ∨ ytpid.isSome = true ∨ (cim = true ∧ cres.isSome = true)) →
      (syncRun pls pid st ytpid cim cres bl search add).result.success = true) :=
  syncRun_fatal pls pid st ytpid cim cres bl search add

/-- Witness for C6: a run whose source fetch raises returns the zeroed
failure report; a run with all pre-loop stages succeeding returns
`success = true` even though every search and every add fails. -/
theorem c6_witness :
    (syncRun (.error ()) "p" (.ok []) none true none [] (fun _ _ => none)
      (fun _ => .raiseExc)).result = failSyncResult
    ∧ (syncRun (.ok [("p", "n")]) "p" (.ok [⟨"t", ["a"]⟩]) (some "Y") false none []
      (fun _ _ => none) (fun _ => .raiseExc)).result.success = true := by
  constructor
  · exact (c6_thm (.error ()) "p" (.ok []) none true none [] (fun _ _ => none)
      (fun _ => .raiseExc)).1 (Or.inl rfl)
  · exact (c6_thm (.ok [("p", "n")]) "p" (.ok [⟨"t", ["a"]⟩]) (some "Y") false none []
      (fun _ _ => none) (fun _ => .raiseExc)).2.2 [("p", "n")] [⟨"t", ["a"]⟩] rfl rfl
      (Or.inr (Or.inl rfl))

/-- Claim C7 (counterexample): `"!!!"` is non-empty and `normalize_text`
succeeds on it, returning the empty string; but `normalize_text` on the
empty string raises `ValueError`, so `normalize(normalize("!!!"))` is an
error, not `normalize("!!!")` — the claimed equation fails at `"!!!"`. -/
theorem c7_counterexample :
    normalizeText "!!!" = .ok ""
    ∧ normalizeText "" = .error "Text cannot be None or empty"
    ∧ Except.bind (normalizeText "!!!") normalizeText ≠ normalizeText "!!!" := by
  refine ⟨rfl, rfl, ?_⟩
  intro h
  have h1 : Except.bind (normalizeText "!!!") normalizeText
      = (.error "Text cannot be None or empty" : Except String String) := rfl
  have h2 : normalizeText "!!!" = (.ok "" : Except String String) := rfl
  rw [h1, h2] at h
  exact Except.noConfusion h

/-- Claim C7 (amended): normalization is idempotent on every input whose
normalized form is non-empty: if `normalize_text` succeeds with a
non-empty result, normalizing that result succeeds and is a fixpoint. -/
theorem c7_amended_thm (x y : String) (h : normalizeText x = .ok y) (hy : y ≠ "") :
    normalizeText y = .ok y := by
  unfold normalizeText at h ⊢
  by_cases hx : x = ""
  · rw [if_pos hx] at h
    exact absurd h (by simp)
  · rw [if_neg hx] at h
    injection h with h'
    rw [if_neg hy]
    subst h'
    exact congrArg (fun l => Except.ok (String.mk l)) (normCore_idem x.data)

/-- Witness for C7's amended theorem: `"Ab c"` normalizes to `"ab c"`,
which renormalizes to itself. -/
theorem c7_witness :
    normalizeText "Ab c" = .ok "ab c" ∧ ("ab c" : String) ≠ ""
    ∧ normalizeText "ab c" = .ok "ab c" := by
  refine ⟨rfl, by decide, ?_⟩
  exact c7_amended_thm "Ab c" "ab c" rfl (by decide)

/-- Claim C8: the similarity of any track against itself is 100: with
identical title and artist strings both token-sort ratios are 100 and the
0.6/0.4 combination yields exactly 100 (this holds with no fast path in
the code). -/
theorem c8_thm (a b : String) (_ha : a ≠ "") (_hb : b ≠ "") :
    calculateSimilarity a b a b = 100 :=
  calculateSimilarity_self a b

/-- Witness for C8 at `("x", "y")`. -/
theorem c8_witness :
    ("x" : String) ≠ "" ∧ ("y" : String) ≠ "" ∧ calculateSimilarity "x" "y" "x" "y" = 100 :=
  ⟨by decide, by decide, c8_thm "x" "y" (by decide) (by decide)⟩

/-- Claim C9: a run whose source playlist comes back empty succeeds: the
report has `success = true`, zero totals, and an empty failed-songs list;
nothing is matched or submitted. -/
theorem c9_thm (pls : List (String × String)) (pid : String) (ytpid : Option String)
    (cim : Bool) (cres : Option String) (bl : List (Option String))
    (search : String → String → Option SearchDict) (add : List String → AddResult) :
    (syncRun (.ok pls) pid (.ok []) ytpid cim cres bl search add).result.success = true
    ∧ (syncRun (.ok pls) pid (.ok []) ytpid cim cres bl search add).result.total_tracks = 0
    ∧ (syncRun (.ok pls) pid (.ok []) ytpid cim cres bl search add).result.matched_tracks = 0
    ∧ (syncRun (.ok pls) pid (.ok []) ytpid cim cres bl search add).result.failed_tracks = 0
    ∧ (syncRun (.ok pls) pid (.ok []) ytpid cim cres bl search add).result.failed_songs = []
    ∧ (syncRun (.ok pls) pid (.ok []) ytpid cim cres bl search add).matchedVideoIds = []
    ∧ (syncRun (.ok pls) pid (.ok []) ytpid cim cres bl search add).addCalls = [] := by
  refine ⟨?_, ?_, ?_, ?_, ?_, ?_, ?_⟩ <;> simp [syncRun]

/-- Claim C10: the module-level helpers are total at their interface —
empty input yields the empty string; when the internal pipeline raises
(`normalize_text` on an emptied intermediate) the helpers return the
lowercased, stripped input — while `normalize_text` and `normalize_song`
raise `ValueError` on empty input. -/
theorem c10_thm :
    (normalizeTrackName "" = "" ∧ normalizeArtistName "" = "")
    ∧ (∀ s e, normalizeText (normalizeFeaturing (removeVideoSuffixes s)) = .error e →
        normalizeTrackName s = pyStrip (pyLower s))
    ∧ (∀ s e, normalizeText (normalizeFeaturing s) = .error e →
        normalizeArtistName s = pyStrip (pyLower s))
    ∧ normalizeText "" = .error "Text cannot be None or empty"
    ∧ (∀ t a rf, t = "" ∨ a = "" →
        normalizeSong t a rf = .error "Both title and artist must be provided") := by
  refine ⟨⟨rfl, rfl⟩, ?_, ?_, rfl, ?_⟩
  · intro s e h
    by_cases hs : s = ""
    · subst hs; rfl
    · rw [normalizeTrackName, if_neg hs, h]
  · intro s e h
    by_cases hs : s = ""
    · subst hs; rfl
    · rw [normalizeArtistName, if_neg hs, h]
  · intro t a rf h
    rw [normalizeSong, if_pos h]

/-- Witness for C10: `"(Official Video)"` empties out in the pipeline, so
the helper falls back to the lowercased stripped input; `normalize_song`
on an empty title raises. -/
theorem c10_witness :
    normalizeText (normalizeFeaturing (removeVideoSuffixes "(Official Video)"))
        = .error "Text cannot be None or empty"
    ∧ normalizeTrackName "(Official Video)" = "(official video)"
    ∧ normalizeSong "" "x" false = .error "Both title and artist must be provided" := by
  refine ⟨rfl, ?_, c10_thm.2.2.2.2 "" "x" false (Or.inl rfl)⟩
  have h := c10_thm.2.1 "(Official Video)" "Text cannot be None or empty" rfl
  rw [h]
  rfl
